import Mathlib

/-!
Shallow embedding of the `hypors` hypothesis-testing library.

Real numbers of the source (`f64`) are modelled as `ℚ`; the external
`statrs` distribution capability is modelled as an abstract record of a
`cdf` and an `inverse_cdf` function, passed to each test as a parameter,
and `f64::sqrt` is likewise passed as an abstract function parameter.
The `(NaN, NaN)` confidence-interval pair of tests that define no interval
is modelled as `none`.  Interpolated values inside error and hypothesis
message strings are elided (the strings keep their constant prefixes).
-/

namespace Hypors

/-- Tail selection for hypothesis tests (src/common/types.rs, src/common.rs). -/
inductive TailType
  | left
  | right
  | two
deriving DecidableEq, Repr

/-- Error taxonomy of the library (src/common/errors.rs). -/
inductive StatError
  | emptyData
  | insufficientData
  | computeError (msg : String)
deriving DecidableEq, Repr

/-- Uniform result record of every test (src/common.rs, src/common/types.rs).
`confidence_interval = none` models the `(f64::NAN, f64::NAN)` pair. -/
structure TestResult where
  test_statistic : ℚ
  p_value : ℚ
  confidence_interval : Option (ℚ × ℚ)
  null_hypothesis : String
  alt_hypothesis : String
  reject_null : Bool
deriving DecidableEq, Repr

/-- The external continuous-distribution capability: `cdf` and `inverse_cdf`
evaluation (the `ContinuousCDF` trait of `statrs`). -/
structure Dist where
  cdf : ℚ → ℚ
  inverse_cdf : ℚ → ℚ

/-- The chi-squared distribution capability additionally exposes its degrees
of freedom through `shape()` (used by `calculate_chi2_ci`). -/
structure ChiDist extends Dist where
  shape : ℚ

/-- A mathematically valid CDF: monotone with values in `[0, 1]`. -/
def IsValidCDF (d : Dist) : Prop :=
  Monotone d.cdf ∧ (∀ x, 0 ≤ d.cdf x) ∧ (∀ x, d.cdf x ≤ 1)

/-- Shared p-value computation (src/src/common.rs lines 81-87). -/
def calculate_p (t_stat : ℚ) (tail : TailType) (dist : Dist) : ℚ :=
  match tail with
  | .left => dist.cdf t_stat
  | .right => 1 - dist.cdf t_stat
  | .two => 2 * (1 - dist.cdf |t_stat|)

/-- Location confidence interval (src/src/common.rs lines 115-123). -/
def calculate_ci (sample_mean std_error alpha : ℚ) (dist : Dist) : ℚ × ℚ :=
  let margin_of_error := dist.inverse_cdf (1 - alpha / 2) * std_error
  (sample_mean - margin_of_error, sample_mean + margin_of_error)

/-- Chi-squared confidence interval for a variance
(src/src/common.rs lines 126-135). -/
def calculate_chi2_ci (sample_variance alpha : ℚ) (dist : ChiDist) : ℚ × ℚ :=
  let df := dist.shape
  let chi_square_lower := dist.inverse_cdf (alpha / 2)
  let chi_square_upper := dist.inverse_cdf (1 - alpha / 2)
  let lower_bound := df * sample_variance / chi_square_upper
  let upper_bound := df * sample_variance / chi_square_lower
  (lower_bound, upper_bound)

/-- Mean of a list of rationals, `xs.iter().sum() / n` as used by every test. -/
def listMean (l : List ℚ) : ℚ := l.sum / (l.length : ℚ)

/-- Unbiased sample variance with `n - 1` denominator, as computed inline by
the t, chi-square variance and related tests. -/
def sampleVar (l : List ℚ) : ℚ :=
  (l.map (fun x => (x - listMean l) ^ 2)).sum / ((l.length : ℚ) - 1)

/-- Null-hypothesis string builder for ANOVA (src/common/utils.rs). -/
def mean_null_hypothesis (num_groups : ℕ) : String :=
  (List.range' 2 (num_groups - 1)).foldl
    (fun h i => h ++ " = µ" ++ toString i) "H0: µ1"

namespace t

/-- One-sample t-test (src/src/t/one_sample.rs `t_test`).  The statrs
`StudentsT::new(0.0, 1.0, df)` construction is modelled by the capability
`mkT : df ↦ Dist`; its failure path is dead here because `df = n - 1 ≥ 1`. -/
def t_test (data : List ℚ) (pop_mean : ℚ) (tail : TailType) (alpha : ℚ)
    (sqrt : ℚ → ℚ) (mkT : ℚ → Dist) : Except StatError TestResult :=
  if data.isEmpty then .error .emptyData
  else if data.length < 2 then .error .insufficientData
  else
    let n : ℚ := data.length
    let sample_mean := listMean data
    let sample_var := sampleVar data
    let std_error := sqrt (sample_var / n)
    let test_statistic := (sample_mean - pop_mean) / std_error
    let df := n - 1
    let t_dist := mkT df
    let p_value := calculate_p test_statistic tail t_dist
    let confidence_interval := calculate_ci sample_mean std_error alpha t_dist
    let reject_null := decide (p_value < alpha)
    let null_hypothesis :=
      match tail with
      | .left => "H0: µ >= pop_mean"
      | .right => "H0: µ <= pop_mean"
      | .two => "H0: µ = pop_mean"
    let alt_hypothesis :=
      match tail with
      | .left => "Ha: µ < pop_mean"
      | .right => "Ha: µ > pop_mean"
      | .two => "Ha: µ ≠ pop_mean"
    .ok { test_statistic, p_value, confidence_interval := some confidence_interval,
          null_hypothesis, alt_hypothesis, reject_null }

/-- Paired two-sample t-test (src/src/t/two_sample.rs `t_test_paired`):
a one-sample t-test on the element-wise differences against mean 0,
with the hypothesis strings rewritten afterwards. -/
def t_test_paired (data1 data2 : List ℚ) (tail : TailType) (alpha : ℚ)
    (sqrt : ℚ → ℚ) (mkT : ℚ → Dist) : Except StatError TestResult :=
  if data1.length ≠ data2.length then
    .error (.computeError "Sample sizes must be equal for paired t-test")
  else
    let differences := (data1.zip data2).map (fun p => p.1 - p.2)
    match t_test differences 0 tail alpha sqrt mkT with
    | .error e => .error e
    | .ok r =>
      .ok { r with
            null_hypothesis :=
              match tail with
              | .left => "H0: µ1 >= µ2"
              | .right => "H0: µ1 <= µ2"
              | .two => "H0: µ1 = µ2",
            alt_hypothesis :=
              match tail with
              | .left => "Ha: µ1 < µ2"
              | .right => "Ha: µ1 > µ2"
              | .two => "Ha: µ1 ≠ µ2" }

/-- Convenience wrapper (src/src/t/two_sample.rs `t_test_paired_vec`). -/
def t_test_paired_vec (data1 data2 : List ℚ) (tail : TailType) (alpha : ℚ)
    (sqrt : ℚ → ℚ) (mkT : ℚ → Dist) : Except StatError TestResult :=
  t_test_paired data1 data2 tail alpha sqrt mkT

/-- Independent two-sample t-test (src/src/t/two_sample.rs `t_test_ind`),
pooled or Welch depending on the `pooled` flag. -/
def t_test_ind (data1 data2 : List ℚ) (tail : TailType) (alpha : ℚ)
    (pooled : Bool) (sqrt : ℚ → ℚ) (mkT : ℚ → Dist) :
    Except StatError TestResult :=
  if data1.isEmpty ∨ data2.isEmpty then .error .emptyData
  else if data1.length < 2 ∨ data2.length < 2 then .error .insufficientData
  else
    let n1 : ℚ := data1.length
    let n2 : ℚ := data2.length
    let mean1 := listMean data1
    let mean2 := listMean data2
    let var1 := sampleVar data1
    let var2 := sampleVar data2
    let sd :=
      if pooled then
        let pooled_var := ((n1 - 1) * var1 + (n2 - 1) * var2) / (n1 + n2 - 2)
        (sqrt (pooled_var * (1 / n1 + 1 / n2)), n1 + n2 - 2)
      else
        (sqrt (var1 / n1 + var2 / n2),
         (var1 / n1 + var2 / n2) ^ 2
           / ((var1 / n1) ^ 2 / (n1 - 1) + (var2 / n2) ^ 2 / (n2 - 1)))
    let std_error := sd.1
    let df := sd.2
    let test_statistic := (mean1 - mean2) / std_error
    let t_dist := mkT df
    let p_value := calculate_p test_statistic tail t_dist
    let confidence_interval := calculate_ci (mean1 - mean2) std_error alpha t_dist
    let reject_null := decide (p_value < alpha)
    let null_hypothesis :=
      match tail with
      | .left => "H0: µ1 >= µ2"
      | .right => "H0: µ1 <= µ2"
      | .two => "H0: µ1 = µ2"
    let alt_hypothesis :=
      match tail with
      | .left => "Ha: µ1 < µ2"
      | .right => "Ha: µ1 > µ2"
      | .two => "Ha: µ1 ≠ µ2"
    .ok { test_statistic, p_value, confidence_interval := some confidence_interval,
          null_hypothesis, alt_hypothesis, reject_null }

end t

namespace z

/-- One-sample z-test (src/src/z/one_sample.rs `z_test`).  `normal` models
the `Normal::new(0.0, 1.0)` standard normal capability (its construction
cannot fail for these constant parameters). -/
def z_test (data : List ℚ) (pop_mean pop_std : ℚ) (tail : TailType)
    (alpha : ℚ) (sqrt : ℚ → ℚ) (normal : Dist) : Except StatError TestResult :=
  if pop_std ≤ 0 then
    .error (.computeError "Population standard deviation must be positive")
  else if data.isEmpty then .error .emptyData
  else
    let n : ℚ := data.length
    let sample_mean := listMean data
    let std_error := pop_std / sqrt n
    let test_statistic := (sample_mean - pop_mean) / std_error
    let p_value := calculate_p test_statistic tail normal
    let confidence_interval := calculate_ci sample_mean std_error alpha normal
    let reject_null := decide (p_value < alpha)
    let null_hypothesis :=
      match tail with
      | .left => "H0: µ >= pop_mean"
      | .right => "H0: µ <= pop_mean"
      | .two => "H0: µ = pop_mean"
    let alt_hypothesis :=
      match tail with
      | .left => "Ha: µ < pop_mean"
      | .right => "Ha: µ > pop_mean"
      | .two => "Ha: µ ≠ pop_mean"
    .ok { test_statistic, p_value, confidence_interval := some confidence_interval,
          null_hypothesis, alt_hypothesis, reject_null }

/-- Paired two-sample z-test (src/src/z/two_sample.rs `z_test_paired`). -/
def z_test_paired (data1 data2 : List ℚ) (pop_std_diff : ℚ) (tail : TailType)
    (alpha : ℚ) (sqrt : ℚ → ℚ) (normal : Dist) : Except StatError TestResult :=
  if pop_std_diff ≤ 0 then
    .error (.computeError "Population standard deviation must be positive")
  else if data1.isEmpty ∨ data2.isEmpty then .error .emptyData
  else if data1.length ≠ data2.length then
    .error (.computeError "Sample sizes must be equal")
  else
    let n : ℚ := data1.length
    let differences := (data1.zip data2).map (fun p => p.1 - p.2)
    let sample_mean_diff := differences.sum / n
    let std_error := pop_std_diff / sqrt n
    let test_statistic := sample_mean_diff / std_error
    let p_value := calculate_p test_statistic tail normal
    let confidence_interval := calculate_ci sample_mean_diff std_error alpha normal
    let reject_null := decide (p_value < alpha)
    let null_hypothesis :=
      match tail with
      | .left => "H0: µ1 >= µ2"
      | .right => "H0: µ1 <= µ2"
      | .two => "H0: µ1 = µ2"
    let alt_hypothesis :=
      match tail with
      | .left => "Ha: µ1 < µ2"
      | .right => "Ha: µ1 > µ2"
      | .two => "Ha: µ1 ≠ µ2"
    .ok { test_statistic, p_value, confidence_interval := some confidence_interval,
          null_hypothesis, alt_hypothesis, reject_null }

/-- Independent two-sample z-test (src/src/z/two_sample.rs `z_test_ind`). -/
def z_test_ind (data1 data2 : List ℚ) (pop_std1 pop_std2 : ℚ)
    (tail : TailType) (alpha : ℚ) (sqrt : ℚ → ℚ) (normal : Dist) :
    Except StatError TestResult :=
  if pop_std1 ≤ 0 then
    .error (.computeError "Population standard deviation 1 must be positive")
  else if pop_std2 ≤ 0 then
    .error (.computeError "Population standard deviation 2 must be positive")
  else if data1.isEmpty then .error .emptyData
  else if data2.isEmpty then .error .emptyData
  else
    let n1 : ℚ := data1.length
    let n2 : ℚ := data2.length
    let mean1 := listMean data1
    let mean2 := listMean data2
    let std_error := sqrt (pop_std1 ^ 2 / n1 + pop_std2 ^ 2 / n2)
    let test_statistic := (mean1 - mean2) / std_error
    let p_value := calculate_p test_statistic tail normal
    let confidence_interval := calculate_ci (mean1 - mean2) std_error alpha normal
    let reject_null := decide (p_value < alpha)
    let null_hypothesis :=
      match tail with
      | .left => "H0: µ1 >= µ2"
      | .right => "H0: µ1 <= µ2"
      | .two => "H0: µ1 = µ2"
    let alt_hypothesis :=
      match tail with
      | .left => "Ha: µ1 < µ2"
      | .right => "Ha: µ1 > µ2"
      | .two => "Ha: µ1 ≠ µ2"
    .ok { test_statistic, p_value, confidence_interval := some confidence_interval,
          null_hypothesis, alt_hypothesis, reject_null }

end z

namespace proportion

/-- One-sample proportion z-test (src/src/proportion/one_sample.rs `z_test`).
The hypothesized-proportion range check comes first, before the data is
collected or inspected. -/
def z_test (data : List ℚ) (pop_proportion : ℚ) (tail : TailType)
    (alpha : ℚ) (sqrt : ℚ → ℚ) (normal : Dist) : Except StatError TestResult :=
  if ¬ (0 ≤ pop_proportion ∧ pop_proportion ≤ 1) then
    .error (.computeError "Population proportion must be between 0 and 1")
  else if data.isEmpty then .error .emptyData
  else
    let n : ℚ := data.length
    let successes := data.sum
    let sample_proportion := successes / n
    let std_error := sqrt (pop_proportion * (1 - pop_proportion) / n)
    if std_error = 0 then
      .error (.computeError "Standard error is zero; cannot compute test statistic")
    else
      let test_statistic := (sample_proportion - pop_proportion) / std_error
      let p_value := calculate_p test_statistic tail normal
      let confidence_interval := calculate_ci sample_proportion std_error alpha normal
      let reject_null := decide (p_value < alpha)
      let null_hypothesis :=
        match tail with
        | .left => "H0: p >= pop_proportion"
        | .right => "H0: p <= pop_proportion"
        | .two => "H0: p = pop_proportion"
      let alt_hypothesis :=
        match tail with
        | .left => "Ha: p < pop_proportion"
        | .right => "Ha: p > pop_proportion"
        | .two => "Ha: p ≠ pop_proportion"
      .ok { test_statistic, p_value, confidence_interval := some confidence_interval,
            null_hypothesis, alt_hypothesis, reject_null }

/-- Two-sample proportion z-test (src/src/proportion/two_sample.rs
`z_test_ind`).  The Rust body contains no error return at all: it divides
by the standard error unconditionally and always constructs a result. -/
def z_test_ind (series1 series2 : List ℚ) (tail : TailType) (alpha : ℚ)
    (pooled : Bool) (sqrt : ℚ → ℚ) (normal : Dist) :
    Except StatError TestResult :=
  let n1 : ℚ := series1.length
  let n2 : ℚ := series2.length
  let successes1 := series1.sum
  let successes2 := series2.sum
  let p1 := successes1 / n1
  let p2 := successes2 / n2
  let std_error :=
    if pooled then
      let pooled_proportion := (successes1 + successes2) / (n1 + n2)
      sqrt (pooled_proportion * (1 - pooled_proportion) * (1 / n1 + 1 / n2))
    else
      sqrt (p1 * (1 - p1) / n1 + p2 * (1 - p2) / n2)
  let test_statistic := (p1 - p2) / std_error
  let p_value := calculate_p test_statistic tail normal
  let confidence_interval := calculate_ci (p1 - p2) std_error alpha normal
  let reject_null := decide (p_value < alpha)
  let null_hypothesis :=
    match tail with
    | .left => "H0: p1 >= p2"
    | .right => "H0: p1 <= p2"
    | .two => "H0: p1 = p2"
  let alt_hypothesis :=
    match tail with
    | .left => "Ha: p1 < p2"
    | .right => "Ha: p1 > p2"
    | .two => "Ha: p1 ≠ p2"
  .ok { test_statistic, p_value, confidence_interval := some confidence_interval,
        null_hypothesis, alt_hypothesis, reject_null }

/-- The standard error computed inside `z_test_ind`, exposed for statements
about the degenerate zero case. -/
def ind_std_error (series1 series2 : List ℚ) (pooled : Bool)
    (sqrt : ℚ → ℚ) : ℚ :=
  let n1 : ℚ := series1.length
  let n2 : ℚ := series2.length
  let successes1 := series1.sum
  let successes2 := series2.sum
  let p1 := successes1 / n1
  let p2 := successes2 / n2
  if pooled then
    let pooled_proportion := (successes1 + successes2) / (n1 + n2)
    sqrt (pooled_proportion * (1 - pooled_proportion) * (1 / n1 + 1 / n2))
  else
    sqrt (p1 * (1 - p1) / n1 + p2 * (1 - p2) / n2)

end proportion

namespace anova

/-- Between-group sum of squares (src/src/anova/one_way.rs lines 60-65). -/
def ss_between (data_groups : List (List ℚ)) : ℚ :=
  let all_values := data_groups.foldl (fun acc g => acc ++ g) []
  let grand_mean := listMean all_values
  (data_groups.map (fun g => (g.length : ℚ) * (listMean g - grand_mean) ^ 2)).sum

/-- Within-group sum of squares (src/src/anova/one_way.rs lines 68-72). -/
def ss_within (data_groups : List (List ℚ)) : ℚ :=
  (data_groups.map (fun g =>
    (g.map (fun x => (x - listMean g) ^ 2)).sum)).sum

/-- Within degrees of freedom `total_n - num_groups`
(src/src/anova/one_way.rs line 75). -/
def df_within (data_groups : List (List ℚ)) : ℚ :=
  ((data_groups.map List.length).sum : ℚ) - (data_groups.length : ℚ)

/-- One-way ANOVA (src/src/anova/one_way.rs `anova`).  `mkF` models the
`FisherSnedecor::new(df_between, df_within)` capability; its failure path is
dead here because both degrees of freedom are positive at the call. -/
def anova (data_groups : List (List ℚ)) (alpha : ℚ)
    (mkF : ℚ → ℚ → Dist) : Except StatError TestResult :=
  let num_groups := data_groups.length
  if num_groups < 2 then
    .error (.computeError "ANOVA requires at least two groups")
  else if data_groups.any List.isEmpty then .error .emptyData
  else
    let dfb : ℚ := (num_groups : ℚ) - 1
    let dfw := df_within data_groups
    if dfw ≤ 0 then .error (.computeError "Degrees of freedom too small")
    else
      let ms_between := ss_between data_groups / dfb
      let ms_within := ss_within data_groups / dfw
      if ms_within = 0 then
        .error (.computeError "Mean square within groups is zero")
      else
        let f_statistic := ms_between / ms_within
        let f_dist := mkF dfb dfw
        let p_value := calculate_p f_statistic .right f_dist
        let reject_null := decide (p_value < alpha)
        .ok { test_statistic := f_statistic, p_value,
              confidence_interval := none,
              null_hypothesis := mean_null_hypothesis num_groups,
              alt_hypothesis := "Ha: At least one group mean is different",
              reject_null }

end anova

namespace chi_square

/-- Chi-square test for variance (src/src/chi_square/variance.rs `variance`);
note that it returns `Result<TestResult, String>`.  The f64 finiteness check
on `pop_variance` is vacuous over `ℚ`.  `mkChi` models `ChiSquared::new(df)`;
its failure path is dead here because `df = n - 1 ≥ 1`. -/
def variance (data : List ℚ) (pop_variance : ℚ) (tail : TailType)
    (alpha : ℚ) (mkChi : ℚ → ChiDist) : Except String TestResult :=
  let n := data.length
  if n < 2 then .error "Sample size must be at least 2."
  else if pop_variance ≤ 0 then
    .error "Population variance must be a positive finite number."
  else
    let sample_variance := sampleVar data
    let test_statistic := ((n : ℚ) - 1) * sample_variance / pop_variance
    let df : ℚ := (n : ℚ) - 1
    let chi_distribution := mkChi df
    let p_value := calculate_p test_statistic tail chi_distribution.toDist
    let reject_null := decide (p_value < alpha)
    let confidence_interval := calculate_chi2_ci pop_variance alpha chi_distribution
    let alt_hypothesis :=
      match tail with
      | .two => "Ha: σ² ≠ pop_variance"
      | .left => "Ha: σ² < pop_variance"
      | .right => "Ha: σ² > pop_variance"
    .ok { test_statistic, p_value, confidence_interval := some confidence_interval,
          null_hypothesis := "H0: σ² = pop_variance", alt_hypothesis, reject_null }

/-- The chi-square independence statistic: sum over all cells of
`(observed - expected)^2 / expected` with expected frequencies
`row_total * col_total / grand_total`, where a cell whose expected frequency
is exactly zero contributes zero (src/src/chi_square/categorical.rs
lines 82-98). -/
def indep_statistic (contingency_table : List (List ℚ)) : ℚ :=
  let total := (contingency_table.map List.sum).sum
  let num_cols := contingency_table.headI.length
  let col_totals := (List.range num_cols).map
    (fun j => (contingency_table.map (fun row => row.getD j 0)).sum)
  (contingency_table.map (fun row =>
    ((row.zip col_totals).map (fun oc =>
      let exp := row.sum * oc.2 / total
      if exp = 0 then 0 else (oc.1 - exp) ^ 2 / exp)).sum)).sum

/-- Chi-square test of independence
(src/src/chi_square/categorical.rs `independence`). -/
def independence (contingency_table : List (List ℚ)) (alpha : ℚ)
    (mkChi : ℚ → ChiDist) : Except StatError TestResult :=
  let num_rows := contingency_table.length
  if num_rows < 2 then .error (.computeError "At least two rows required")
  else
    let num_cols := contingency_table.headI.length
    if num_cols < 2 ∨ ¬ contingency_table.all (fun row => row.length = num_cols) then
      .error (.computeError "All rows must have equal and ≥2 columns")
    else
      let total := (contingency_table.map List.sum).sum
      if total = 0 then
        .error (.computeError "Total frequency must be greater than zero")
      else
        let test_statistic := indep_statistic contingency_table
        let df : ℚ := ((num_rows - 1) * (num_cols - 1) : ℕ)
        let chi_distribution := mkChi df
        let p_value := calculate_p test_statistic .right chi_distribution.toDist
        let reject_null := decide (p_value < alpha)
        .ok { test_statistic, p_value, confidence_interval := none,
              null_hypothesis := "H0: Variables are independent",
              alt_hypothesis := "Ha: Variables are not independent",
              reject_null }

/-- The goodness-of-fit statistic: sum over categories of
`(observed - expected)^2 / expected`, where a category with expected
frequency exactly zero contributes zero
(src/src/chi_square/categorical.rs lines 181-191). -/
def gof_statistic (observed expected : List ℚ) : ℚ :=
  ((observed.zip expected).map (fun oe =>
    if oe.2 = 0 then 0 else (oe.1 - oe.2) ^ 2 / oe.2)).sum

/-- Chi-square goodness-of-fit test
(src/src/chi_square/categorical.rs `goodness_of_fit`). -/
def goodness_of_fit (observed expected : List ℚ) (alpha : ℚ)
    (mkChi : ℚ → ChiDist) : Except StatError TestResult :=
  if observed.length ≠ expected.length then
    .error (.computeError "Observed and expected lengths must match")
  else if observed.length < 2 then
    .error (.computeError "At least two categories required")
  else
    let test_statistic := gof_statistic observed expected
    let df : ℚ := (observed.length : ℚ) - 1
    let chi_distribution := mkChi df
    let p_value := calculate_p test_statistic .right chi_distribution.toDist
    let reject_null := decide (p_value < alpha)
    .ok { test_statistic, p_value, confidence_interval := none,
          null_hypothesis := "H0: Observed distribution matches expected distribution",
          alt_hypothesis := "Ha: Observed distribution does not match expected distribution",
          reject_null }

end chi_square

namespace mann_whitney

/-- Length of the leading run of elements equal to `v` (the inner
`while end + 1 < len && combined[end + 1].0 == combined[start].0` scan of
src/src/mann_whitney/u.rs lines 85-87). -/
def runLen (v : ℚ) : List ℚ → ℕ
  | [] => 0
  | x :: xs => if x = v then runLen v xs + 1 else 0

/-- Mid-rank assignment loop of src/src/mann_whitney/u.rs lines 81-95,
starting at 0-indexed position `pos`: each maximal run of equal values
spanning 1-indexed positions `start + 1 .. end + 1` receives the average
rank `((start + 1) + (end + 1)) / 2`. -/
def assignRanksAux (pos : ℕ) : List ℚ → List ℚ
  | [] => []
  | x :: xs =>
    let k := runLen x xs + 1
    List.replicate k (((pos + 1 + (pos + k) : ℕ) : ℚ) / 2) ++
      assignRanksAux (pos + k) (xs.drop (runLen x xs))
termination_by l => l.length
decreasing_by
  simp only [List.length_drop, List.length_cons]
  omega

/-- Rank assignment with mid-rank tie correction over a sorted sequence. -/
def assignRanks (l : List ℚ) : List ℚ := assignRanksAux 0 l

/-- The combined group-tagged sequence (src/src/mann_whitney/u.rs
lines 58-65); `true` tags group 1, `false` tags group 2. -/
def combined (data1 data2 : List ℚ) : List (ℚ × Bool) :=
  data1.map (fun v => (v, true)) ++ data2.map (fun v => (v, false))

/-- Group sizes `n1`, `n2` counted by filtering the combined sequence
(src/src/mann_whitney/u.rs lines 67-68). -/
def groupCounts (data1 data2 : List ℚ) : ℚ × ℚ :=
  (((combined data1 data2).filter (fun p => p.2)).length,
   ((combined data1 data2).filter (fun p => ! p.2)).length)

/-- The combined sequence sorted by value (src/src/mann_whitney/u.rs
line 75). -/
def combinedSorted (data1 data2 : List ℚ) : List (ℚ × Bool) :=
  (combined data1 data2).mergeSort (fun a b => a.1 ≤ b.1)

/-- Per-group rank sums `(R1, R2)` (src/src/mann_whitney/u.rs lines 97-107). -/
def rankSums (data1 data2 : List ℚ) : ℚ × ℚ :=
  let sorted := combinedSorted data1 data2
  let rank_values := assignRanks (sorted.map Prod.fst)
  let zipped := rank_values.zip sorted
  ((zipped.filter (fun p => p.2.2)).map Prod.fst |>.sum,
   (zipped.filter (fun p => ! p.2.2)).map Prod.fst |>.sum)

/-- The pair `(U1, U2)` with `Ui = Ri - ni (ni + 1) / 2`
(src/src/mann_whitney/u.rs lines 110-111). -/
def uPair (data1 data2 : List ℚ) : ℚ × ℚ :=
  let n1 := (groupCounts data1 data2).1
  let n2 := (groupCounts data1 data2).2
  let sums := rankSums data1 data2
  (sums.1 - n1 * (n1 + 1) / 2, sums.2 - n2 * (n2 + 1) / 2)

/-- Mann-Whitney U test (src/src/mann_whitney/u.rs `u_test`); it returns
`Result<TestResult, String>`. -/
def u_test (data1 data2 : List ℚ) (alpha : ℚ) (tail_type : TailType)
    (sqrt : ℚ → ℚ) (normal : Dist) : Except String TestResult :=
  let n1 := (groupCounts data1 data2).1
  let n2 := (groupCounts data1 data2).2
  if n1 = 0 ∨ n2 = 0 then
    .error "Both groups must contain at least one observation."
  else
    let us := uPair data1 data2
    let u_statistic := min us.1 us.2
    let total := n1 + n2
    let mean_u := n1 * n2 / 2
    let variance_u := n1 * n2 * (total + 1) / 12
    let zstat := (u_statistic - mean_u) / sqrt variance_u
    let p_value := calculate_p zstat tail_type normal
    let reject_null := decide (p_value < alpha)
    .ok { test_statistic := u_statistic, p_value, confidence_interval := none,
          null_hypothesis := "H0: The distributions of both groups are equal.",
          alt_hypothesis := "Ha: The distributions of both groups are not equal.",
          reject_null }

end mann_whitney

/-- A simple concrete distribution capability used to instantiate tests on
concrete inputs. -/
def constDist : Dist where
  cdf := fun _ => 1 / 4
  inverse_cdf := fun _ => 0

/-- A concrete, mathematically valid CDF supported on `[0, ∞)`:
`x ↦ x / (x + 1)` for `x ≥ 0` and `0` below, sharing with the true
chi-squared CDF the property `cdf 0 = 0 < 1/2`. -/
def hillCdf : ℚ → ℚ := fun x => if x < 0 then 0 else x / (x + 1)

/-- Chi-squared capability built on `hillCdf` (its `inverse_cdf` is the
inverse of `x / (x + 1)` on `[0, 1)`). -/
def mkChiHill : ℚ → ChiDist := fun df =>
  { cdf := hillCdf, inverse_cdf := fun p => p / (1 - p), shape := df }

/-- Chi-squared capability with a mock quantile function taking value
`1/1000` at probabilities `≤ 1/40` and `5` above. -/
def mkChiMock : ℚ → ChiDist := fun df =>
  { cdf := fun _ => 1 / 2,
    inverse_cdf := fun p => if p ≤ 1 / 40 then 1 / 1000 else 5,
    shape := df }

end Hypors

namespace Hypors

/-- C1: the shared p-value function returns `cdf(x)` for a left tail,
`1 - cdf(x)` for a right tail and `2 * (1 - cdf |x|)` for a two tail. -/
theorem calculate_p_spec (x : ℚ) (d : Dist) :
    calculate_p x .left d = d.cdf x ∧
    calculate_p x .right d = 1 - d.cdf x ∧
    calculate_p x .two d = 2 * (1 - d.cdf |x|) :=
  ⟨rfl, rfl, rfl⟩

theorem sum_map_ifzero {α : Type} (e g : α → ℚ) (l : List α) :
    (l.map (fun a => if e a = 0 then 0 else g a)).sum =
      ((l.filter (fun a => e a ≠ 0)).map g).sum := by
  induction l with
  | nil => rfl
  | cons a l ih =>
    by_cases h : e a = 0 <;>
      simp [List.filter_cons, h, ih]

/-- C9: in both chi-square categorical statistics, every cell whose expected
frequency is exactly zero contributes zero: the statistic equals the sum of
`(observed - expected)^2 / expected` over only the cells with a nonzero
expected frequency. -/
theorem zero_expected_cells_contribute_zero :
    (∀ observed expected : List ℚ,
      chi_square.gof_statistic observed expected =
        (((observed.zip expected).filter (fun oe => oe.2 ≠ 0)).map
          (fun oe => (oe.1 - oe.2) ^ 2 / oe.2)).sum) ∧
    (∀ contingency_table : List (List ℚ),
      chi_square.indep_statistic contingency_table =
        (contingency_table.map (fun row =>
          (((row.zip ((List.range contingency_table.headI.length).map
                (fun j => (contingency_table.map (fun r => r.getD j 0)).sum))).filter
              (fun oc => row.sum * oc.2 /
                ((contingency_table.map List.sum).sum) ≠ 0)).map
            (fun oc =>
              (oc.1 - row.sum * oc.2 / ((contingency_table.map List.sum).sum)) ^ 2 /
                (row.sum * oc.2 / ((contingency_table.map List.sum).sum)))).sum)).sum) := by
  constructor
  · intro observed expected
    exact sum_map_ifzero (fun oe : ℚ × ℚ => oe.2)
      (fun oe : ℚ × ℚ => (oe.1 - oe.2) ^ 2 / oe.2) (observed.zip expected)
  · intro table
    unfold chi_square.indep_statistic
    refine congrArg List.sum (List.map_congr_left ?_)
    intro row _
    exact sum_map_ifzero
      (fun oc : ℚ × ℚ => row.sum * oc.2 / ((table.map List.sum).sum))
      (fun oc : ℚ × ℚ =>
        (oc.1 - row.sum * oc.2 / ((table.map List.sum).sum)) ^ 2 /
          (row.sum * oc.2 / ((table.map List.sum).sum)))
      (row.zip ((List.range table.headI.length).map
        (fun j => (table.map (fun r => r.getD j 0)).sum)))

/-- C10: the one-sample proportion z-test rejects every hypothesized
proportion outside `[0, 1]` with a `ComputeError`, before the data is
inspected, so even an empty sample yields `ComputeError`, not `EmptyData`. -/
theorem prop_range_check_first (data : List ℚ) (pop_proportion : ℚ)
    (tail : TailType) (alpha : ℚ) (sqrt : ℚ → ℚ) (normal : Dist)
    (h : ¬ (0 ≤ pop_proportion ∧ pop_proportion ≤ 1)) :
    proportion.z_test data pop_proportion tail alpha sqrt normal =
      .error (.computeError "Population proportion must be between 0 and 1") ∧
    proportion.z_test data pop_proportion tail alpha sqrt normal ≠
      .error .emptyData := by
  refine ⟨?_, ?_⟩ <;> simp [proportion.z_test, h]

theorem prop_range_check_first_witness :
    ¬ (0 ≤ (3 / 2 : ℚ) ∧ (3 / 2 : ℚ) ≤ 1) ∧
    (proportion.z_test [] (3 / 2) .two (1 / 20) id constDist =
      .error (.computeError "Population proportion must be between 0 and 1") ∧
    proportion.z_test [] (3 / 2) .two (1 / 20) id constDist ≠
      .error .emptyData) :=
  ⟨by norm_num,
   prop_range_check_first [] (3 / 2) .two (1 / 20) id constDist (by norm_num)⟩

/-- C8 counterexample: on two all-failure samples the computed standard error
is exactly `0`, yet the two-sample proportion z-test `z_test_ind` returns a
`TestResult` instead of failing with a compute error. -/
theorem two_sample_prop_accepts_zero_std_error :
    proportion.ind_std_error [0, 0] [0, 0] true id = 0 ∧
    (proportion.z_test_ind [0, 0] [0, 0] .two (1 / 20) true id
      constDist).isOk = true := by
  constructor
  · norm_num [proportion.ind_std_error]
  · rfl

/-- C8 (amended): the one-sample proportion z-test fails with a
`ComputeError` whenever the computed standard error is exactly `0`, while
the two-sample `z_test_ind` performs no such check and returns a
`TestResult` for every input. -/
theorem prop_std_error_zero (data : List ℚ) (pop_proportion : ℚ)
    (tail : TailType) (alpha : ℚ) (sqrt : ℚ → ℚ) (normal : Dist)
    (hrange : 0 ≤ pop_proportion ∧ pop_proportion ≤ 1) (hne : data ≠ [])
    (hzero : sqrt (pop_proportion * (1 - pop_proportion) / (data.length : ℚ)) = 0) :
    proportion.z_test data pop_proportion tail alpha sqrt normal =
      .error (.computeError
        "Standard error is zero; cannot compute test statistic") ∧
    (∀ (s1 s2 : List ℚ) (t : TailType) (a : ℚ) (pooled : Bool)
        (sq : ℚ → ℚ) (d : Dist),
      ∃ r, proportion.z_test_ind s1 s2 t a pooled sq d = .ok r) := by
  constructor
  · simp [proportion.z_test, hrange, hne, hzero]
  · intro s1 s2 t a pooled sq d
    exact ⟨_, rfl⟩

theorem prop_std_error_zero_witness :
    ((0 ≤ (0 : ℚ) ∧ (0 : ℚ) ≤ 1) ∧ ([1] : List ℚ) ≠ [] ∧
      id ((0 : ℚ) * (1 - 0) / (([1] : List ℚ).length : ℚ)) = 0) ∧
    (proportion.z_test [1] 0 .two (1 / 20) id constDist =
      .error (.computeError
        "Standard error is zero; cannot compute test statistic") ∧
    (∀ (s1 s2 : List ℚ) (t : TailType) (a : ℚ) (pooled : Bool)
        (sq : ℚ → ℚ) (d : Dist),
      ∃ r, proportion.z_test_ind s1 s2 t a pooled sq d = .ok r)) :=
  ⟨⟨by norm_num, by simp, by norm_num⟩,
   prop_std_error_zero [1] 0 .two (1 / 20) id constDist
     (by norm_num) (by simp) (by norm_num)⟩

/-- C4: evaluation of the chi-square variance test at a concrete input,
showing that the returned confidence interval is built from the hypothesized
`pop_variance` (here `1`), not from the sample variance (here `5000`), so it
differs from the interval `(k·s² / q(1 − α/2), k·s² / q(α/2))` of the claim
and does not bracket the sample variance. -/
theorem chi2_ci_built_from_pop_variance :
    sampleVar [0, 100] = 5000 ∧
    (chi_square.variance [0, 100] 1 .two (1 / 20) mkChiMock).toOption.map
        TestResult.confidence_interval =
      some (some (calculate_chi2_ci 1 (1 / 20) (mkChiMock 1))) ∧
    calculate_chi2_ci 1 (1 / 20) (mkChiMock 1) = (1 / 5, 1000) ∧
    calculate_chi2_ci 5000 (1 / 20) (mkChiMock 1) = (1000, 5000000) ∧
    ¬ (1 / 5 ≤ (5000 : ℚ) ∧ (5000 : ℚ) ≤ 1000) := by
  refine ⟨?_, ?_, ?_, ?_, ?_⟩
  · norm_num [sampleVar, listMean]
  · norm_num [chi_square.variance, sampleVar, listMean]
    exact ⟨_, rfl, rfl⟩
  · norm_num [calculate_chi2_ci, mkChiMock]
  · norm_num [calculate_chi2_ci, mkChiMock]
  · norm_num

theorem listMean_of_const (c : ℚ) (g : List ℚ) (hne : g ≠ [])
    (h : ∀ x ∈ g, x = c) : listMean g = c := by
  unfold listMean
  rw [List.sum_eq_card_nsmul g c h, nsmul_eq_mul]
  have hlen : (g.length : ℚ) ≠ 0 := by
    have : g.length ≠ 0 := by
      simpa [List.length_eq_zero] using hne
    exact_mod_cast this
  field_simp

theorem ss_within_of_const (groups : List (List ℚ))
    (hne : ∀ g ∈ groups, g ≠ [])
    (hconst : ∀ g ∈ groups, ∀ x ∈ g, ∀ y ∈ g, x = y) :
    anova.ss_within groups = 0 := by
  unfold anova.ss_within
  apply List.sum_eq_zero
  intro s hs
  simp only [List.mem_map] at hs
  obtain ⟨g, hg, rfl⟩ := hs
  apply List.sum_eq_zero
  intro t ht
  simp only [List.mem_map] at ht
  obtain ⟨x, hx, rfl⟩ := ht
  rw [listMean_of_const x g (hne g hg) (fun y hy => hconst g hg y hy x hx)]
  ring

/-- C7: the one-way ANOVA fails with the appropriate error — never
constructing a `TestResult` — when there are fewer than two groups, when a
group is empty, when `df_within ≤ 0`, or when the within-group mean square
is exactly zero, the last case in particular whenever every group consists
of identical values. -/
theorem anova_failure_modes (groups : List (List ℚ)) (alpha : ℚ)
    (mkF : ℚ → ℚ → Dist) :
    (groups.length < 2 →
      anova.anova groups alpha mkF =
        .error (.computeError "ANOVA requires at least two groups")) ∧
    (2 ≤ groups.length → (∃ g ∈ groups, g = []) →
      anova.anova groups alpha mkF = .error .emptyData) ∧
    (2 ≤ groups.length → (∀ g ∈ groups, g ≠ []) →
      anova.df_within groups ≤ 0 →
      anova.anova groups alpha mkF =
        .error (.computeError "Degrees of freedom too small")) ∧
    (2 ≤ groups.length → (∀ g ∈ groups, g ≠ []) →
      0 < anova.df_within groups →
      anova.ss_within groups / anova.df_within groups = 0 →
      anova.anova groups alpha mkF =
        .error (.computeError "Mean square within groups is zero")) ∧
    (2 ≤ groups.length → (∀ g ∈ groups, g ≠ []) →
      (∀ g ∈ groups, ∀ x ∈ g, ∀ y ∈ g, x = y) →
      ∃ m, anova.anova groups alpha mkF = .error (.computeError m)) := by
  have hany_false : (∀ g ∈ groups, g ≠ []) →
      groups.any List.isEmpty = false := by
    intro hne
    rw [List.any_eq_false]
    intro g hg
    simpa [List.isEmpty_iff] using hne g hg
  refine ⟨?_, ?_, ?_, ?_, ?_⟩
  · intro h
    simp [anova.anova, h]
  · intro h2 hex
    have hany : groups.any List.isEmpty = true := by
      rw [List.any_eq_true]
      obtain ⟨g, hg, hge⟩ := hex
      exact ⟨g, hg, by simp [hge]⟩
    simp [anova.anova, Nat.not_lt.2 h2, hany]
  · intro h2 hne hdf
    simp [anova.anova, Nat.not_lt.2 h2, hany_false hne, hdf]
  · intro h2 hne hdfpos hms
    simp [anova.anova, Nat.not_lt.2 h2, hany_false hne, not_le.2 hdfpos, hms]
  · intro h2 hne hconst
    by_cases hdf : anova.df_within groups ≤ 0
    · refine ⟨"Degrees of freedom too small", ?_⟩
      simp [anova.anova, Nat.not_lt.2 h2, hany_false hne, hdf]
    · refine ⟨"Mean square within groups is zero", ?_⟩
      have hms : anova.ss_within groups / anova.df_within groups = 0 := by
        rw [ss_within_of_const groups hne hconst, zero_div]
      simp [anova.anova, Nat.not_lt.2 h2, hany_false hne, hdf, hms]

theorem t_test_ok_inv {data : List ℚ} {pop_mean : ℚ} {tail : TailType}
    {alpha : ℚ} {sqrt : ℚ → ℚ} {mkT : ℚ → Dist} {r : TestResult}
    (h : t.t_test data pop_mean tail alpha sqrt mkT = .ok r) :
    r.reject_null = decide (r.p_value < alpha) := by
  unfold t.t_test at h
  split at h
  · exact absurd h (by simp)
  split at h
  · exact absurd h (by simp)
  · simp only [Except.ok.injEq] at h
    subst h
    rfl

theorem t_test_paired_ok_inv {data1 data2 : List ℚ} {tail : TailType}
    {alpha : ℚ} {sqrt : ℚ → ℚ} {mkT : ℚ → Dist} {r : TestResult}
    (h : t.t_test_paired data1 data2 tail alpha sqrt mkT = .ok r) :
    r.reject_null = decide (r.p_value < alpha) := by
  simp only [t.t_test_paired] at h
  split at h
  · exact absurd h (by simp)
  · split at h
    · exact absurd h (by simp)
    · rename_i r' heq
      simp only [Except.ok.injEq] at h
      subst h
      show r'.reject_null = decide (r'.p_value < alpha)
      exact t_test_ok_inv heq

theorem t_test_paired_vec_ok_inv {data1 data2 : List ℚ} {tail : TailType}
    {alpha : ℚ} {sqrt : ℚ → ℚ} {mkT : ℚ → Dist} {r : TestResult}
    (h : t.t_test_paired_vec data1 data2 tail alpha sqrt mkT = .ok r) :
    r.reject_null = decide (r.p_value < alpha) := by
  unfold t.t_test_paired_vec at h
  exact t_test_paired_ok_inv h

theorem t_test_ind_ok_inv {data1 data2 : List ℚ} {tail : TailType}
    {alpha : ℚ} {pooled : Bool} {sqrt : ℚ → ℚ} {mkT : ℚ → Dist}
    {r : TestResult}
    (h : t.t_test_ind data1 data2 tail alpha pooled sqrt mkT = .ok r) :
    r.reject_null = decide (r.p_value < alpha) := by
  simp only [t.t_test_ind] at h
  repeat' split at h
  all_goals try exact Except.noConfusion h
  all_goals simp only [Except.ok.injEq] at h
  all_goals subst h
  all_goals rfl

theorem z_test_ok_inv {data : List ℚ} {pop_mean pop_std : ℚ}
    {tail : TailType} {alpha : ℚ} {sqrt : ℚ → ℚ} {normal : Dist}
    {r : TestResult}
    (h : z.z_test data pop_mean pop_std tail alpha sqrt normal = .ok r) :
    r.reject_null = decide (r.p_value < alpha) := by
  simp only [z.z_test] at h
  repeat' split at h
  all_goals try exact Except.noConfusion h
  all_goals simp only [Except.ok.injEq] at h
  all_goals subst h
  all_goals rfl

theorem z_test_paired_ok_inv {data1 data2 : List ℚ} {pop_std_diff : ℚ}
    {tail : TailType} {alpha : ℚ} {sqrt : ℚ → ℚ} {normal : Dist}
    {r : TestResult}
    (h : z.z_test_paired data1 data2 pop_std_diff tail alpha sqrt normal =
      .ok r) :
    r.reject_null = decide (r.p_value < alpha) := by
  simp only [z.z_test_paired] at h
  repeat' split at h
  all_goals try exact Except.noConfusion h
  all_goals simp only [Except.ok.injEq] at h
  all_goals subst h
  all_goals rfl

theorem z_test_ind_ok_inv {data1 data2 : List ℚ} {pop_std1 pop_std2 : ℚ}
    {tail : TailType} {alpha : ℚ} {sqrt : ℚ → ℚ} {normal : Dist}
    {r : TestResult}
    (h : z.z_test_ind data1 data2 pop_std1 pop_std2 tail alpha sqrt normal =
      .ok r) :
    r.reject_null = decide (r.p_value < alpha) := by
  simp only [z.z_test_ind] at h
  repeat' split at h
  all_goals try exact Except.noConfusion h
  all_goals simp only [Except.ok.injEq] at h
  all_goals subst h
  all_goals rfl

theorem prop_z_test_ok_inv {data : List ℚ} {pop_proportion : ℚ}
    {tail : TailType} {alpha : ℚ} {sqrt : ℚ → ℚ} {normal : Dist}
    {r : TestResult}
    (h : proportion.z_test data pop_proportion tail alpha sqrt normal =
      .ok r) :
    r.reject_null = decide (r.p_value < alpha) := by
  simp only [proportion.z_test] at h
  repeat' split at h
  all_goals try exact Except.noConfusion h
  all_goals simp only [Except.ok.injEq] at h
  all_goals subst h
  all_goals rfl

theorem prop_z_test_ind_ok_inv {series1 series2 : List ℚ}
    {tail : TailType} {alpha : ℚ} {pooled : Bool} {sqrt : ℚ → ℚ}
    {normal : Dist} {r : TestResult}
    (h : proportion.z_test_ind series1 series2 tail alpha pooled sqrt normal =
      .ok r) :
    r.reject_null = decide (r.p_value < alpha) := by
  simp only [proportion.z_test_ind] at h
  simp only [Except.ok.injEq] at h
  subst h
  rfl

theorem anova_ok_inv {groups : List (List ℚ)} {alpha : ℚ}
    {mkF : ℚ → ℚ → Dist} {r : TestResult}
    (h : anova.anova groups alpha mkF = .ok r) :
    r.reject_null = decide (r.p_value < alpha) := by
  simp only [anova.anova] at h
  repeat' split at h
  all_goals try exact Except.noConfusion h
  all_goals simp only [Except.ok.injEq] at h
  all_goals subst h
  all_goals rfl

theorem variance_ok_inv {data : List ℚ} {pop_variance : ℚ}
    {tail : TailType} {alpha : ℚ} {mkChi : ℚ → ChiDist} {r : TestResult}
    (h : chi_square.variance data pop_variance tail alpha mkChi = .ok r) :
    r.reject_null = decide (r.p_value < alpha) := by
  simp only [chi_square.variance] at h
  repeat' split at h
  all_goals try exact Except.noConfusion h
  all_goals simp only [Except.ok.injEq] at h
  all_goals subst h
  all_goals rfl

theorem independence_ok_inv {table : List (List ℚ)} {alpha : ℚ}
    {mkChi : ℚ → ChiDist} {r : TestResult}
    (h : chi_square.independence table alpha mkChi = .ok r) :
    r.reject_null = decide (r.p_value < alpha) := by
  simp only [chi_square.independence] at h
  repeat' split at h
  all_goals try exact Except.noConfusion h
  all_goals simp only [Except.ok.injEq] at h
  all_goals subst h
  all_goals rfl

theorem goodness_of_fit_ok_inv {observed expected : List ℚ} {alpha : ℚ}
    {mkChi : ℚ → ChiDist} {r : TestResult}
    (h : chi_square.goodness_of_fit observed expected alpha mkChi = .ok r) :
    r.reject_null = decide (r.p_value < alpha) := by
  simp only [chi_square.goodness_of_fit] at h
  repeat' split at h
  all_goals try exact Except.noConfusion h
  all_goals simp only [Except.ok.injEq] at h
  all_goals subst h
  all_goals rfl

theorem u_test_ok_inv {data1 data2 : List ℚ} {alpha : ℚ}
    {tail_type : TailType} {sqrt : ℚ → ℚ} {normal : Dist} {r : TestResult}
    (h : mann_whitney.u_test data1 data2 alpha tail_type sqrt normal =
      .ok r) :
    r.reject_null = decide (r.p_value < alpha) := by
  simp only [mann_whitney.u_test] at h
  repeat' split at h
  all_goals try exact Except.noConfusion h
  all_goals simp only [Except.ok.injEq] at h
  all_goals subst h
  all_goals rfl

/-- C2: every test function of the library, on every input for which it
returns a `TestResult` rather than an error, satisfies
`reject_null = (p_value < alpha)`. -/
theorem reject_null_iff_p_lt_alpha :
    (∀ (data : List ℚ) (pop_mean : ℚ) (tail : TailType) (alpha : ℚ)
        (sqrt : ℚ → ℚ) (mkT : ℚ → Dist) (r : TestResult),
      t.t_test data pop_mean tail alpha sqrt mkT = .ok r →
      r.reject_null = decide (r.p_value < alpha)) ∧
    (∀ (d1 d2 : List ℚ) (tail : TailType) (alpha : ℚ) (sqrt : ℚ → ℚ)
        (mkT : ℚ → Dist) (r : TestResult),
      t.t_test_paired d1 d2 tail alpha sqrt mkT = .ok r →
      r.reject_null = decide (r.p_value < alpha)) ∧
    (∀ (d1 d2 : List ℚ) (tail : TailType) (alpha : ℚ) (sqrt : ℚ → ℚ)
        (mkT : ℚ → Dist) (r : TestResult),
      t.t_test_paired_vec d1 d2 tail alpha sqrt mkT = .ok r →
      r.reject_null = decide (r.p_value < alpha)) ∧
    (∀ (d1 d2 : List ℚ) (tail : TailType) (alpha : ℚ) (pooled : Bool)
        (sqrt : ℚ → ℚ) (mkT : ℚ → Dist) (r : TestResult),
      t.t_test_ind d1 d2 tail alpha pooled sqrt mkT = .ok r →
      r.reject_null = decide (r.p_value < alpha)) ∧
    (∀ (data : List ℚ) (pop_mean pop_std : ℚ) (tail : TailType) (alpha : ℚ)
        (sqrt : ℚ → ℚ) (normal : Dist) (r : TestResult),
      z.z_test data pop_mean pop_std tail alpha sqrt normal = .ok r →
      r.reject_null = decide (r.p_value < alpha)) ∧
    (∀ (d1 d2 : List ℚ) (pop_std_diff : ℚ) (tail : TailType) (alpha : ℚ)
        (sqrt : ℚ → ℚ) (normal : Dist) (r : TestResult),
      z.z_test_paired d1 d2 pop_std_diff tail alpha sqrt normal = .ok r →
      r.reject_null = decide (r.p_value < alpha)) ∧
    (∀ (d1 d2 : List ℚ) (pop_std1 pop_std2 : ℚ) (tail : TailType)
        (alpha : ℚ) (sqrt : ℚ → ℚ) (normal : Dist) (r : TestResult),
      z.z_test_ind d1 d2 pop_std1 pop_std2 tail alpha sqrt normal = .ok r →
      r.reject_null = decide (r.p_value < alpha)) ∧
    (∀ (data : List ℚ) (pop_proportion : ℚ) (tail : TailType) (alpha : ℚ)
        (sqrt : ℚ → ℚ) (normal : Dist) (r : TestResult),
      proportion.z_test data pop_proportion tail alpha sqrt normal = .ok r →
      r.reject_null = decide (r.p_value < alpha)) ∧
    (∀ (s1 s2 : List ℚ) (tail : TailType) (alpha : ℚ) (pooled : Bool)
        (sqrt : ℚ → ℚ) (normal : Dist) (r : TestResult),
      proportion.z_test_ind s1 s2 tail alpha pooled sqrt normal = .ok r →
      r.reject_null = decide (r.p_value < alpha)) ∧
    (∀ (groups : List (List ℚ)) (alpha : ℚ) (mkF : ℚ → ℚ → Dist)
        (r : TestResult),
      anova.anova groups alpha mkF = .ok r →
      r.reject_null = decide (r.p_value < alpha)) ∧
    (∀ (data : List ℚ) (pop_variance : ℚ) (tail : TailType) (alpha : ℚ)
        (mkChi : ℚ → ChiDist) (r : TestResult),
      chi_square.variance data pop_variance tail alpha mkChi = .ok r →
      r.reject_null = decide (r.p_value < alpha)) ∧
    (∀ (table : List (List ℚ)) (alpha : ℚ) (mkChi : ℚ → ChiDist)
        (r : TestResult),
      chi_square.independence table alpha mkChi = .ok r →
      r.reject_null = decide (r.p_value < alpha)) ∧
    (∀ (observed expected : List ℚ) (alpha : ℚ) (mkChi : ℚ → ChiDist)
        (r : TestResult),
      chi_square.goodness_of_fit observed expected alpha mkChi = .ok r →
      r.reject_null = decide (r.p_value < alpha)) ∧
    (∀ (d1 d2 : List ℚ) (alpha : ℚ) (tail_type : TailType) (sqrt : ℚ → ℚ)
        (normal : Dist) (r : TestResult),
      mann_whitney.u_test d1 d2 alpha tail_type sqrt normal = .ok r →
      r.reject_null = decide (r.p_value < alpha)) :=
  ⟨fun _ _ _ _ _ _ _ h => t_test_ok_inv h,
   fun _ _ _ _ _ _ _ h => t_test_paired_ok_inv h,
   fun _ _ _ _ _ _ _ h => t_test_paired_vec_ok_inv h,
   fun _ _ _ _ _ _ _ _ h => t_test_ind_ok_inv h,
   fun _ _ _ _ _ _ _ _ h => z_test_ok_inv h,
   fun _ _ _ _ _ _ _ _ h => z_test_paired_ok_inv h,
   fun _ _ _ _ _ _ _ _ _ h => z_test_ind_ok_inv h,
   fun _ _ _ _ _ _ _ h => prop_z_test_ok_inv h,
   fun _ _ _ _ _ _ _ _ h => prop_z_test_ind_ok_inv h,
   fun _ _ _ _ h => anova_ok_inv h,
   fun _ _ _ _ _ _ h => variance_ok_inv h,
   fun _ _ _ _ h => independence_ok_inv h,
   fun _ _ _ _ _ h => goodness_of_fit_ok_inv h,
   fun _ _ _ _ _ _ _ h => u_test_ok_inv h⟩

theorem reject_null_iff_p_lt_alpha_witness :
    (t.t_test [0, 2] 0 .left (1 / 2) id (fun _ => constDist) =
      .ok { test_statistic := 1, p_value := 1 / 4,
            confidence_interval := some (1, 1),
            null_hypothesis := "H0: µ >= pop_mean",
            alt_hypothesis := "Ha: µ < pop_mean",
            reject_null := true } ∧
    ({ test_statistic := 1, p_value := 1 / 4,
       confidence_interval := some (1, 1),
       null_hypothesis := "H0: µ >= pop_mean",
       alt_hypothesis := "Ha: µ < pop_mean",
       reject_null := true } : TestResult).reject_null =
      decide (({ test_statistic := 1, p_value := 1 / 4,
                 confidence_interval := some (1, 1),
                 null_hypothesis := "H0: µ >= pop_mean",
                 alt_hypothesis := "Ha: µ < pop_mean",
                 reject_null := true } : TestResult).p_value < (1 / 2 : ℚ))) :=
  have heval : t.t_test [0, 2] 0 .left (1 / 2) id (fun _ => constDist) =
      .ok { test_statistic := 1, p_value := 1 / 4,
            confidence_interval := some (1, 1),
            null_hypothesis := "H0: µ >= pop_mean",
            alt_hypothesis := "Ha: µ < pop_mean",
            reject_null := true } := by
    norm_num [t.t_test, listMean, sampleVar, calculate_p, calculate_ci,
      constDist]
  ⟨heval,
   reject_null_iff_p_lt_alpha.1 [0, 2] 0 .left (1 / 2) id
     (fun _ => constDist) _ heval⟩

theorem calculate_p_bounds_aux (x : ℚ) (tail : TailType) (d : Dist)
    (hv : IsValidCDF d) :
    0 ≤ calculate_p x tail d ∧
    calculate_p x tail d ≤ (if tail = .two then 2 else 1) ∧
    (tail = .two → 1 / 2 ≤ d.cdf |x| → calculate_p x tail d ≤ 1) := by
  obtain ⟨_, h0, h1⟩ := hv
  cases tail with
  | left =>
    refine ⟨h0 x, ?_, by simp⟩
    show d.cdf x ≤ 1
    exact h1 x
  | right =>
    refine ⟨?_, ?_, by simp⟩
    · show 0 ≤ 1 - d.cdf x
      linarith [h1 x]
    · show 1 - d.cdf x ≤ 1
      linarith [h0 x]
  | two =>
    refine ⟨?_, ?_, ?_⟩
    · show 0 ≤ 2 * (1 - d.cdf |x|)
      linarith [h1 |x|]
    · show 2 * (1 - d.cdf |x|) ≤ 2
      linarith [h0 |x|]
    · intro _ hhalf
      show 2 * (1 - d.cdf |x|) ≤ 1
      linarith

theorem hillCdf_valid (df : ℚ) : IsValidCDF (mkChiHill df).toDist := by
  refine ⟨?_, ?_, ?_⟩
  · intro a b hab
    simp only [mkChiHill, hillCdf]
    split <;> split
    · exact le_refl 0
    · rename_i hb
      have hb0 : (0 : ℚ) ≤ b := not_lt.1 hb
      positivity
    · rename_i ha hb
      exact absurd (lt_of_le_of_lt hab hb) (not_lt.2 (not_lt.1 ha))
    · rename_i ha hb
      have ha0 : (0 : ℚ) ≤ a := not_lt.1 ha
      have hb0 : (0 : ℚ) ≤ b := not_lt.1 hb
      rw [div_le_div_iff (by linarith) (by linarith)]
      nlinarith
  · intro y
    simp only [mkChiHill, hillCdf]
    split
    · exact le_refl 0
    · rename_i hy
      have : (0 : ℚ) ≤ y := not_lt.1 hy
      positivity
  · intro y
    simp only [mkChiHill, hillCdf]
    split
    · norm_num
    · rename_i hy
      have hy0 : (0 : ℚ) ≤ y := not_lt.1 hy
      rw [div_le_one (by linarith)]
      linarith

/-- C3 (amended): with a mathematically valid CDF the shared p-value is
always nonnegative and is at most 1 for left and right tails, but for a
two-tailed test it is only bounded by 2, reaching `≤ 1` exactly when
`cdf |statistic| ≥ 1/2`; accordingly the chi-square variance test's p-value
lies in `[0, 2]`, and within `[0, 1]` only for non-two-tailed selections. -/
theorem p_value_bounds :
    (∀ (x : ℚ) (tail : TailType) (d : Dist), IsValidCDF d →
      0 ≤ calculate_p x tail d ∧
      calculate_p x tail d ≤ (if tail = .two then 2 else 1) ∧
      (tail = .two → 1 / 2 ≤ d.cdf |x| → calculate_p x tail d ≤ 1)) ∧
    (∀ (data : List ℚ) (pop_variance : ℚ) (tail : TailType) (alpha : ℚ)
        (mkChi : ℚ → ChiDist) (r : TestResult),
      (∀ df, IsValidCDF (mkChi df).toDist) →
      chi_square.variance data pop_variance tail alpha mkChi = .ok r →
      0 ≤ r.p_value ∧ r.p_value ≤ 2 ∧ (tail ≠ .two → r.p_value ≤ 1)) := by
  refine ⟨fun x tail d hv => calculate_p_bounds_aux x tail d hv, ?_⟩
  intro data pop_variance tail alpha mkChi r hv h
  simp only [chi_square.variance] at h
  split at h
  · exact Except.noConfusion h
  split at h
  · exact Except.noConfusion h
  simp only [Except.ok.injEq] at h
  subst h
  obtain ⟨hp0, hp1, -⟩ :=
    calculate_p_bounds_aux
      (((data.length : ℚ) - 1) * sampleVar data / pop_variance) tail
      (mkChi ((data.length : ℚ) - 1)).toDist (hv _)
  refine ⟨hp0, ?_, ?_⟩
  · show calculate_p
        (((data.length : ℚ) - 1) * sampleVar data / pop_variance) tail
        (mkChi ((data.length : ℚ) - 1)).toDist ≤ 2
    split_ifs at hp1 <;> linarith
  · intro ht
    show calculate_p
        (((data.length : ℚ) - 1) * sampleVar data / pop_variance) tail
        (mkChi ((data.length : ℚ) - 1)).toDist ≤ 1
    rw [if_neg ht] at hp1
    exact hp1

theorem p_value_bounds_witness :
    0 ≤ calculate_p 0 .left (mkChiHill 1).toDist ∧
    calculate_p 0 .left (mkChiHill 1).toDist ≤
      (if TailType.left = TailType.two then 2 else 1) ∧
    (TailType.left = TailType.two →
      1 / 2 ≤ (mkChiHill 1).toDist.cdf |(0 : ℚ)| →
      calculate_p 0 .left (mkChiHill 1).toDist ≤ 1) :=
  p_value_bounds.1 0 .left (mkChiHill 1).toDist (hillCdf_valid 1)

/-- C3 counterexample: with a mathematically valid CDF whose value at the
statistic is 0 (exactly as for the true chi-squared CDF at a statistic of
0), the two-tailed chi-square variance test returns the p-value 2 > 1. -/
theorem two_tailed_chi2_p_exceeds_one :
    IsValidCDF (mkChiHill 1).toDist ∧
    (chi_square.variance [1, 1] 1 .two (1 / 20) mkChiHill).toOption.map
      TestResult.p_value = some 2 ∧
    ¬ ((2 : ℚ) ≤ 1) := by
  refine ⟨hillCdf_valid 1, ?_, by norm_num⟩
  norm_num [chi_square.variance, sampleVar, listMean, calculate_p,
    mkChiHill, hillCdf]
  exact ⟨_, rfl, rfl⟩

theorem runLen_le (v : ℚ) (l : List ℚ) : mann_whitney.runLen v l ≤ l.length := by
  induction l with
  | nil => simp [mann_whitney.runLen]
  | cons x xs ih =>
    simp only [mann_whitney.runLen, List.length_cons]
    split <;> omega

theorem assignRanksAux_length (pos : ℕ) (l : List ℚ) :
    (mann_whitney.assignRanksAux pos l).length = l.length := by
  match l with
  | [] => simp [mann_whitney.assignRanksAux]
  | x :: xs =>
    have hr := runLen_le x xs
    have ih := assignRanksAux_length (pos + (mann_whitney.runLen x xs + 1))
      (xs.drop (mann_whitney.runLen x xs))
    simp only [mann_whitney.assignRanksAux, List.length_append,
      List.length_replicate, List.length_cons, List.length_drop] at ih ⊢
    omega
termination_by l.length
decreasing_by
  simp only [List.length_drop, List.length_cons]
  omega

theorem assignRanksAux_sum (pos : ℕ) (l : List ℚ) :
    (mann_whitney.assignRanksAux pos l).sum =
      (l.length : ℚ) * pos + (l.length : ℚ) * ((l.length : ℚ) + 1) / 2 := by
  match l with
  | [] => simp [mann_whitney.assignRanksAux]
  | x :: xs =>
    have hr := runLen_le x xs
    have ih := assignRanksAux_sum (pos + (mann_whitney.runLen x xs + 1))
      (xs.drop (mann_whitney.runLen x xs))
    simp only [mann_whitney.assignRanksAux, List.sum_append,
      List.sum_replicate, nsmul_eq_mul, List.length_cons,
      List.length_drop] at ih ⊢
    rw [ih]
    push_cast [hr]
    ring
termination_by l.length
decreasing_by
  simp only [List.length_drop, List.length_cons]
  omega

theorem runLen_replicate_append (j : ℕ) (v : ℚ) (rest : List ℚ) :
    mann_whitney.runLen v (List.replicate j v ++ rest) =
      j + mann_whitney.runLen v rest := by
  induction j with
  | zero => simp
  | succ j ih =>
    rw [List.replicate_succ, List.cons_append]
    simp [mann_whitney.runLen, ih]
    omega

theorem runLen_eq_zero (v : ℚ) (rest : List ℚ) (h : rest.head? ≠ some v) :
    mann_whitney.runLen v rest = 0 := by
  match rest with
  | [] => rfl
  | y :: _ =>
    have hy : ¬ (y = v) := by simpa using h
    simp [mann_whitney.runLen, hy]

theorem assignRanksAux_run (v : ℚ) (k : ℕ) (rest : List ℚ) (pos : ℕ)
    (hk : 0 < k) (hh : rest.head? ≠ some v) :
    mann_whitney.assignRanksAux pos (List.replicate k v ++ rest) =
      List.replicate k (((pos + 1 + (pos + k) : ℕ) : ℚ) / 2) ++
        mann_whitney.assignRanksAux (pos + k) rest := by
  obtain ⟨j, rfl⟩ : ∃ j, k = j + 1 := ⟨k - 1, by omega⟩
  rw [List.replicate_succ, List.cons_append]
  simp only [mann_whitney.assignRanksAux]
  rw [runLen_replicate_append, runLen_eq_zero v rest hh]
  have hdrop : (List.replicate j v ++ rest).drop (j + 0) = rest := by
    rw [Nat.add_zero]
    rw [List.drop_left' (List.length_replicate j v)]
  rw [hdrop]

theorem sum_fst_filter_partition (l : List (ℚ × (ℚ × Bool))) :
    ((l.filter (fun p => p.2.2)).map Prod.fst).sum +
      ((l.filter (fun p => ! p.2.2)).map Prod.fst).sum =
      (l.map Prod.fst).sum := by
  induction l with
  | nil => simp
  | cons a l ih =>
    cases hb : a.2.2 <;>
      simp [List.filter_cons, hb, ← ih] <;> ring

theorem groupCounts_eq (d1 d2 : List ℚ) :
    mann_whitney.groupCounts d1 d2 = ((d1.length : ℚ), (d2.length : ℚ)) := by
  unfold mann_whitney.groupCounts mann_whitney.combined
  simp [List.filter_append, List.filter_map, Function.comp_def]

theorem combinedSorted_map_fst_length (d1 d2 : List ℚ) :
    ((mann_whitney.combinedSorted d1 d2).map Prod.fst).length =
      d1.length + d2.length := by
  simp [mann_whitney.combinedSorted, mann_whitney.combined,
    List.length_mergeSort]

theorem rank_sum_total (d1 d2 : List ℚ) :
    (mann_whitney.assignRanks
        ((mann_whitney.combinedSorted d1 d2).map Prod.fst)).sum =
      ((d1.length + d2.length : ℕ) : ℚ) *
        (((d1.length + d2.length : ℕ) : ℚ) + 1) / 2 := by
  unfold mann_whitney.assignRanks
  rw [assignRanksAux_sum, combinedSorted_map_fst_length]
  push_cast
  ring

theorem rankSums_add (d1 d2 : List ℚ) :
    (mann_whitney.rankSums d1 d2).1 + (mann_whitney.rankSums d1 d2).2 =
      ((d1.length + d2.length : ℕ) : ℚ) *
        (((d1.length + d2.length : ℕ) : ℚ) + 1) / 2 := by
  unfold mann_whitney.rankSums
  simp only
  rw [sum_fst_filter_partition, List.map_fst_zip]
  · exact rank_sum_total d1 d2
  · unfold mann_whitney.assignRanks
    rw [assignRanksAux_length]
    simp [mann_whitney.combinedSorted, List.length_mergeSort]

/-- C5: the ranking step assigns to every maximal run of equal values the
mid-rank `((first_position) + (last_position)) / 2` with 1-indexed
positions, and consequently the ranks assigned over the sorted combined
samples always sum to `N (N + 1) / 2`, ties included. -/
theorem midrank_ties_and_rank_sum :
    (∀ (v : ℚ) (k : ℕ) (rest : List ℚ) (pos : ℕ), 0 < k →
      rest.head? ≠ some v →
      mann_whitney.assignRanksAux pos (List.replicate k v ++ rest) =
        List.replicate k (((pos + 1 + (pos + k) : ℕ) : ℚ) / 2) ++
          mann_whitney.assignRanksAux (pos + k) rest) ∧
    (∀ data1 data2 : List ℚ,
      (mann_whitney.assignRanks
          ((mann_whitney.combinedSorted data1 data2).map Prod.fst)).sum =
        ((data1.length + data2.length : ℕ) : ℚ) *
          (((data1.length + data2.length : ℕ) : ℚ) + 1) / 2) :=
  ⟨assignRanksAux_run, rank_sum_total⟩

theorem midrank_ties_and_rank_sum_witness :
    0 < 2 ∧ ([3] : List ℚ).head? ≠ some 1 ∧
    mann_whitney.assignRanksAux 0 (List.replicate 2 (1 : ℚ) ++ [3]) =
      List.replicate 2 (((0 + 1 + (0 + 2) : ℕ) : ℚ) / 2) ++
        mann_whitney.assignRanksAux (0 + 2) [3] :=
  ⟨by norm_num, by simp,
   midrank_ties_and_rank_sum.1 1 2 [3] 0 (by norm_num) (by simp)⟩

/-- C6: with per-group rank sums `R1`, `R2`, the quantities
`U1 = R1 - n1 (n1 + 1) / 2` and `U2 = R2 - n2 (n2 + 1) / 2` satisfy
`U1 + U2 = n1 * n2` exactly, ties included, and the Mann-Whitney test
reports `min U1 U2` as its statistic. -/
theorem u_pair_sum_and_min_statistic (data1 data2 : List ℚ) (alpha : ℚ)
    (tail : TailType) (sqrt : ℚ → ℚ) (normal : Dist)
    (h1 : data1 ≠ []) (h2 : data2 ≠ []) :
    (mann_whitney.uPair data1 data2).1 + (mann_whitney.uPair data1 data2).2 =
      (data1.length : ℚ) * (data2.length : ℚ) ∧
    ∃ r, mann_whitney.u_test data1 data2 alpha tail sqrt normal = .ok r ∧
      r.test_statistic =
        min (mann_whitney.uPair data1 data2).1
          (mann_whitney.uPair data1 data2).2 := by
  constructor
  · have hR := rankSums_add data1 data2
    unfold mann_whitney.uPair
    rw [groupCounts_eq]
    simp only
    push_cast at hR ⊢
    linear_combination hR
  · have hg := groupCounts_eq data1 data2
    have hn1 : ((data1.length : ℚ)) ≠ 0 := by
      have : data1.length ≠ 0 := by
        simpa [List.length_eq_zero] using h1
      exact_mod_cast this
    have hn2 : ((data2.length : ℚ)) ≠ 0 := by
      have : data2.length ≠ 0 := by
        simpa [List.length_eq_zero] using h2
      exact_mod_cast this
    unfold mann_whitney.u_test
    rw [hg]
    simp only
    rw [if_neg (by simp [hn1, hn2])]
    exact ⟨_, rfl, rfl⟩

theorem u_pair_sum_and_min_statistic_witness :
    ([1, 2, 2] : List ℚ) ≠ [] ∧ ([2, 3] : List ℚ) ≠ [] ∧
    ((mann_whitney.uPair [1, 2, 2] [2, 3]).1 +
        (mann_whitney.uPair [1, 2, 2] [2, 3]).2 =
      (([1, 2, 2] : List ℚ).length : ℚ) * (([2, 3] : List ℚ).length : ℚ) ∧
    ∃ r, mann_whitney.u_test [1, 2, 2] [2, 3] (1 / 20) .two id constDist =
        .ok r ∧
      r.test_statistic =
        min (mann_whitney.uPair [1, 2, 2] [2, 3]).1
          (mann_whitney.uPair [1, 2, 2] [2, 3]).2) :=
  ⟨by simp, by simp,
   u_pair_sum_and_min_statistic [1, 2, 2] [2, 3] (1 / 20) .two id constDist
     (by simp) (by simp)⟩

theorem anova_failure_modes_witness :
    2 ≤ ([[5, 5, 5], [5, 5, 5], [5, 5, 5]] : List (List ℚ)).length ∧
    (∀ g ∈ ([[5, 5, 5], [5, 5, 5], [5, 5, 5]] : List (List ℚ)), g ≠ []) ∧
    (∀ g ∈ ([[5, 5, 5], [5, 5, 5], [5, 5, 5]] : List (List ℚ)),
      ∀ x ∈ g, ∀ y ∈ g, x = y) ∧
    ∃ m, anova.anova [[5, 5, 5], [5, 5, 5], [5, 5, 5]] (1 / 20)
      (fun _ _ => constDist) = .error (.computeError m) :=
  ⟨by norm_num, by decide, by decide,
   (anova_failure_modes [[5, 5, 5], [5, 5, 5], [5, 5, 5]] (1 / 20)
     (fun _ _ => constDist)).2.2.2.2 (by norm_num) (by decide) (by decide)⟩

end Hypors
